import Mathlib

/-!
# A verification development for the 1MHouse booking console

This file gives a shallow embedding of the core data model and algorithms of
the 1MHouse property-booking console (TypeScript/React, Firestore-backed) and
proves properties of the availability-grid builder, the booking conflict
detector, the data-access layer, and the location-scoped synchronisation
controller.

Modelling conventions:
* A JavaScript `Date` is its epoch timestamp in milliseconds, embedded as
  `Int`.  `date-fns`' `startOfDay` floors the timestamp to a multiple of
  86 400 000 ms (one calendar day).
* Firestore collections / the in-memory arrays become explicit `List`s inside
  a `Store` record; asynchronous mutations become pure state-passing
  functions.
* String document ids stay `String`; auto-generated ids (Firestore doc ids,
  `uuidv4`) are supplied as explicit parameters.
-/

/-- A JavaScript `Date`: epoch milliseconds. -/
abbrev DateTime := Int

/-- Milliseconds in one calendar day. -/
def msPerDay : Int := 86400000

/-- `date-fns` `startOfDay`: strip the time-of-day component, i.e. floor the
timestamp down to the enclosing day boundary. -/
def startOfDay (t : DateTime) : DateTime :=
  (t.fdiv msPerDay) * msPerDay

/-- The calendar-day index of a timestamp. -/
def dayOf (t : DateTime) : Int :=
  t.fdiv msPerDay

/-- `src/lib/types.ts`: the status stored on a `Booking`
(`Exclude<BookingStatus, 'available'>`). -/
inductive BookingStatus where
  | booked
  | pending
  | maintenance
deriving DecidableEq, Repr

/-- `src/lib/types.ts`: the status displayed in a calendar cell
(`BookingStatus`, including `'available'`). -/
inductive CellStatus where
  | available
  | booked
  | pending
  | maintenance
deriving DecidableEq, Repr

/-- `src/lib/types.ts` `Location`. -/
structure Location where
  id : String
  name : String
deriving DecidableEq, Repr

/-- `src/lib/types.ts` `Room`. -/
structure Room where
  id : String
  name : String
  locationId : String
deriving DecidableEq, Repr

/-- `src/lib/types.ts` `Booking` (dates already converted to `Date`). -/
structure Booking where
  id : String
  roomId : String
  guestName : String
  startDate : DateTime
  endDate : DateTime
  status : BookingStatus
deriving DecidableEq, Repr

/-- `Omit<Booking, 'id'>`: the payload handed to `addBooking`. -/
structure BookingData where
  roomId : String
  guestName : String
  startDate : DateTime
  endDate : DateTime
  status : BookingStatus
deriving DecidableEq, Repr

/-! ## Conflict detector (`src/components/admin/booking-form-dialog.tsx`) -/

/-- `isOverlapping` from `booking-form-dialog.tsx` (lines 97–110): normalise
all four endpoints to start of day, then closed-interval overlap
`normNewStart <= normExistingEnd && normNewEnd >= normExistingStart`. -/
def isOverlapping (newStart newEnd existingStart existingEnd : DateTime) : Bool :=
  let normNewStart := startOfDay newStart
  let normNewEnd := startOfDay newEnd
  let normExistingStart := startOfDay existingStart
  let normExistingEnd := startOfDay existingEnd
  decide (normNewStart ≤ normExistingEnd) && decide (normNewEnd ≥ normExistingStart)

/-- The conflict-scan loop of `onSubmit` in `booking-form-dialog.tsx`
(lines 164–205): walk the room's existing bookings in order, skip the booking
currently being edited (`booking && existingBooking.id === booking.id`), and
return the first overlapping booking found (`setSelectedOverlappingBooking`),
or `none`. `editing` is `some id` when the dialog is editing booking `id`. -/
def findOverlappingBooking (candStart candEnd : DateTime) (editing : Option String) :
    List Booking → Option Booking
  | [] => none
  | b :: rest =>
    if editing = some b.id then
      findOverlappingBooking candStart candEnd editing rest
    else if isOverlapping candStart candEnd b.startDate b.endDate then
      some b
    else
      findOverlappingBooking candStart candEnd editing rest

/-! ## Availability grid builder (`src/components/calendar/availability-calendar.tsx`) -/

/-- `date-fns` `isWithinInterval date (start, end)`: inclusive containment of
the raw date values. -/
def isWithinInterval (date start_ end_ : DateTime) : Bool :=
  decide (start_ ≤ date) && decide (date ≤ end_)

/-- `src/lib/types.ts` `CalendarCellData`. -/
structure CalendarCellData where
  date : DateTime
  roomId : String
  status : CellStatus
  booking : Option Booking
deriving DecidableEq, Repr

/-- The `dayBookings` filter inside `calendarData`
(`availability-calendar.tsx` lines 116–123): bookings of the room whose raw
`[startDate, endDate]` interval contains the grid day.  Note the source does
not normalise the booking endpoints here. -/
def dayBookingsFor (bookings : List Booking) (roomId : String) (date : DateTime) :
    List Booking :=
  bookings.filter (fun b => b.roomId == roomId && isWithinInterval date b.startDate b.endDate)

/-- One cell of `calendarData` (`availability-calendar.tsx` lines 114–148):
status defaults to `available`; when bookings cover the day the status is
picked by the `booked` / `maintenance` / `pending` chain and the cell
references the first booking of the winning status. -/
def cellFor (bookings : List Booking) (roomId : String) (date : DateTime) :
    CalendarCellData :=
  let dayBookings := dayBookingsFor bookings roomId date
  if dayBookings.isEmpty then
    { date := date, roomId := roomId, status := .available, booking := none }
  else if dayBookings.any (fun b => b.status == .booked) then
    { date := date, roomId := roomId, status := .booked,
      booking := dayBookings.find? (fun b => b.status == .booked) }
  else if dayBookings.any (fun b => b.status == .maintenance) then
    { date := date, roomId := roomId, status := .maintenance,
      booking := dayBookings.find? (fun b => b.status == .maintenance) }
  else if dayBookings.any (fun b => b.status == .pending) then
    { date := date, roomId := roomId, status := .pending,
      booking := dayBookings.find? (fun b => b.status == .pending) }
  else
    { date := date, roomId := roomId, status := .available, booking := none }

/-- `calendarData` (`availability-calendar.tsx` lines 109–151): one row per
room, one cell per visible day. -/
def calendarData (rooms : List Room) (bookings : List Booking)
    (weekDays : List DateTime) : List (Room × List CalendarCellData) :=
  rooms.map (fun room => (room, weekDays.map (fun date => cellFor bookings room.id date)))

/-! ## Data-access layer (`src/lib/data.ts`) -/

/-- The persistent document store: the `locations`, `rooms` and `bookings`
collections. -/
structure Store where
  locations : List Location
  rooms : List Room
  bookings : List Booking
deriving DecidableEq, Repr

/-- `getRooms(locationId?)`: rooms filtered to a location when one is given. -/
def getRooms (s : Store) (locationId : Option String) : List Room :=
  match locationId with
  | some l => s.rooms.filter (fun r => r.locationId == l)
  | none => s.rooms

/-- `getBookings(roomId?)` (`data.ts`): bookings filtered to a room when one
is given. -/
def getBookings (s : Store) (roomId : Option String) : List Booking :=
  match roomId with
  | some r => s.bookings.filter (fun b => b.roomId == r)
  | none => s.bookings

/-- `getBookingsByLocation` (Firestore `data.ts` lines 212–245): list the
location's rooms, return `[]` if there are none, otherwise query bookings
whose `roomId` is in `roomIds.slice(0, 30)` — the source truncates to the
first 30 room ids because a Firestore `in` query accepts at most 30 values,
and performs no follow-up chunked queries. -/
def getBookingsByLocation (s : Store) (locationId : String) : List Booking :=
  let locationRooms := getRooms s (some locationId)
  if locationRooms.isEmpty then
    []
  else
    let roomIds := locationRooms.map (fun r => r.id)
    s.bookings.filter (fun b => (roomIds.take 30).contains b.roomId)

/-- `addBooking` (in-memory `data.ts` lines 518–523): append the new booking
with a freshly generated id and return it. -/
def addBooking (newId : String) (d : BookingData) (s : Store) : Booking × Store :=
  let newBooking : Booking :=
    { id := newId, roomId := d.roomId, guestName := d.guestName,
      startDate := d.startDate, endDate := d.endDate, status := d.status }
  (newBooking, { s with bookings := s.bookings ++ [newBooking] })

/-- `updateBooking` (in-memory `data.ts` lines 525–534): find the index of
the booking with the same id; if found, overwrite it in place and return it;
otherwise return `undefined` and leave the store alone. -/
def updateBooking (u : Booking) (s : Store) : Option Booking × Store :=
  match s.bookings.findIdx? (fun b => b.id == u.id) with
  | some i => (some u, { s with bookings := s.bookings.set i u })
  | none => (none, s)

/-- `deleteRoom` (in-memory `data.ts` lines 490–500, same guard as the
Firestore version at lines 162–183): refuse when any booking references the
room, otherwise drop the room and report whether the room list shrank. -/
def deleteRoom (s : Store) (roomId : String) : Bool × Store :=
  let hasBookings := s.bookings.any (fun b => b.roomId == roomId)
  if hasBookings then
    (false, s)
  else
    let newRooms := s.rooms.filter (fun r => r.id != roomId)
    (decide (newRooms.length < s.rooms.length), { s with rooms := newRooms })

/-- The store with all three collections empty. -/
def emptyStore : Store :=
  { locations := [], rooms := [], bookings := [] }

/-- `seedInitialData` (Firestore `data.ts` lines 308–391): if the
`locations` collection is non-empty, do nothing; otherwise batch-write two
locations, three rooms under "Granada, Spain", and two sample bookings whose
dates are offsets of the current time.  `freshId` supplies the auto-generated
document ids and `now` the current timestamp. -/
def seedInitialData (freshId : Nat → String) (now : DateTime) (s : Store) : Store :=
  if s.locations.isEmpty then
    let granadaId := freshId 0
    let secondId := freshId 1
    let sunriseId := freshId 2
    let oceanId := freshId 3
    let gardenId := freshId 4
    { locations := s.locations ++
        [ { id := granadaId, name := "Granada, Spain" },
          { id := secondId, name := "Second Location (Coming Soon)" } ],
      rooms := s.rooms ++
        [ { id := sunriseId, name := "Sunrise Suite", locationId := granadaId },
          { id := oceanId, name := "Ocean View Deluxe", locationId := granadaId },
          { id := gardenId, name := "Garden Retreat", locationId := granadaId } ],
      bookings := s.bookings ++
        [ { id := freshId 5, roomId := sunriseId, guestName := "Alice Wonderland",
            startDate := now - 2 * msPerDay, endDate := now + 1 * msPerDay,
            status := .booked },
          { id := freshId 6, roomId := oceanId, guestName := "Bob The Builder",
            startDate := now, endDate := now + 3 * msPerDay,
            status := .pending } ] }
  else
    s

/-! ## Concrete sample data used by witnesses and counterexamples -/

/-- A `booked` booking on room `r1` for days 3–5 (midnight endpoints). -/
def sampleBooked : Booking :=
  { id := "bk1", roomId := "r1", guestName := "Alice",
    startDate := 3 * msPerDay, endDate := 5 * msPerDay, status := .booked }

/-- A `maintenance` booking on room `r1` covering days 0–2. -/
def sampleMaint : Booking :=
  { id := "bk2", roomId := "r1", guestName := "Crew",
    startDate := 0, endDate := 2 * msPerDay, status := .maintenance }

/-- A `pending` booking on room `r1` covering days 0–2. -/
def samplePend : Booking :=
  { id := "bk3", roomId := "r1", guestName := "Bob",
    startDate := 0, endDate := 2 * msPerDay, status := .pending }

/-- A `booked` booking on room `r1` whose stored dates carry a time-of-day
component: noon of day 0 through noon of day 2. -/
def bkNoonBooked : Booking :=
  { id := "bk4", roomId := "r1", guestName := "Dana",
    startDate := 43200000, endDate := 2 * msPerDay + 43200000, status := .booked }

/-- The same booking as `bkNoonBooked` with both dates at midnight. -/
def bkMidnightBooked : Booking :=
  { id := "bk4", roomId := "r1", guestName := "Dana",
    startDate := 0, endDate := 2 * msPerDay, status := .booked }

/-! ## Location-scoped sync controller (`src/app/page.tsx`) -/

/-- The slice of `HomePage` state holding the location-scoped data
(`page.tsx`): the selected location id and the room and booking lists
displayed for it. -/
structure PageState where
  selectedLocationId : Option String
  allRoomsForSelectedLocation : List Room
  allBookingsForSelectedLocation : List Booking
deriving DecidableEq, Repr

/-- Events of the single-threaded UI event loop that touch the
location-scoped state: the admin selecting a location (which also issues an
asynchronous fetch for it), and the resolution of the fetch that was issued
for a given location id. -/
inductive PageEvent where
  | selectLocation (locId : String)
  | fetchCompletes (locId : String)
deriving DecidableEq, Repr

/-- One event-loop step of the sync controller.  `selectLocation l` is
`handleLocationChange` (`page.tsx` lines 587–590): it only sets
`selectedLocationId`.  `fetchCompletes l` is the continuation of
`fetchLocationSpecificData` (`page.tsx` lines 500–530) issued while
`selectedLocationId` was `l`: after
`await Promise.all([getRooms(l), getBookingsByLocation(l)])` resolves it
stores the fetched lists unconditionally — the source contains no check that
`l` still equals the current `selectedLocationId` and no cleanup or
generation counter on the effect. -/
def pageStep (store : Store) (s : PageState) : PageEvent → PageState
  | .selectLocation l => { s with selectedLocationId := some l }
  | .fetchCompletes l =>
      { s with
        allRoomsForSelectedLocation := getRooms store (some l),
        allBookingsForSelectedLocation := getBookingsByLocation store l }

/-- Run the controller over a sequence of event-loop events. -/
def pageRun (store : Store) (s : PageState) (events : List PageEvent) : PageState :=
  events.foldl (pageStep store) s

/-! ## More concrete sample data -/

/-- Location `A`. -/
def locA : Location := { id := "A", name := "Alpha House" }

/-- Location `B`. -/
def locB : Location := { id := "B", name := "Beta House" }

/-- The single room of location `A`. -/
def roomA : Room := { id := "ra", name := "Room A1", locationId := "A" }

/-- The single room of location `B`. -/
def roomB : Room := { id := "rb", name := "Room B1", locationId := "B" }

/-- A booking on location `A`'s room. -/
def bookingA : Booking :=
  { id := "ba", roomId := "ra", guestName := "Ann",
    startDate := 0, endDate := msPerDay, status := .booked }

/-- A booking on location `B`'s room. -/
def bookingB : Booking :=
  { id := "bb", roomId := "rb", guestName := "Ben",
    startDate := 0, endDate := msPerDay, status := .pending }

/-- A store with two locations, one room each, one booking each. -/
def storeAB : Store :=
  { locations := [locA, locB], rooms := [roomA, roomB],
    bookings := [bookingA, bookingB] }

/-- The initial `HomePage` state: nothing selected, nothing loaded. -/
def pageInit : PageState :=
  { selectedLocationId := none, allRoomsForSelectedLocation := [],
    allBookingsForSelectedLocation := [] }

/-- The race trace of C5: the admin selects `A`, then switches to `B` while
`A`'s fetch is still pending; `B`'s fetch resolves first and `A`'s stale
fetch resolves last. -/
def staleTrace : List PageEvent :=
  [.selectLocation "A", .selectLocation "B", .fetchCompletes "B", .fetchCompletes "A"]

/-- A room of the 31-room location `L`. -/
def roomL (i : Nat) : Room :=
  { id := "r" ++ toString i, name := "Room", locationId := "L" }

/-- Thirty-one rooms `r0` … `r30`, all in location `L`. -/
def rooms31 : List Room := (List.range 31).map roomL

/-- A booking on `r30`, the 31st room of location `L`. -/
def bkOnLast : Booking :=
  { id := "b31", roomId := "r30", guestName := "Zoe",
    startDate := 0, endDate := msPerDay, status := .booked }

/-- A store whose location `L` has 31 rooms and one booking, on the 31st
room. -/
def storeL31 : Store :=
  { locations := [{ id := "L", name := "Large" }], rooms := rooms31,
    bookings := [bkOnLast] }

/-- A store where a booking still references room `ra`. -/
def storeWithBooking : Store :=
  { locations := [locA], rooms := [roomA], bookings := [bookingA] }

/-- The same store after the booking was removed. -/
def storeNoBooking : Store :=
  { locations := [locA], rooms := [roomA], bookings := [] }

/-! ## Theorems -/

/-- C1.  The conflict check reports an overlap iff some existing booking other
than the one being edited satisfies the closed-interval test on start-of-day
normalised endpoints, and the booking being edited is never the reported
conflict. -/
theorem conflict_check_iff (cs ce : DateTime) (editing : Option String)
    (bs : List Booking) :
    ((findOverlappingBooking cs ce editing bs).isSome ↔
      ∃ b ∈ bs, editing ≠ some b.id ∧
        startOfDay cs ≤ startOfDay b.endDate ∧ startOfDay ce ≥ startOfDay b.startDate)
    ∧ (∀ b, findOverlappingBooking cs ce editing bs = some b → editing ≠ some b.id) := by
  induction bs with
  | nil => simp [findOverlappingBooking]
  | cons b rest ih =>
    by_cases hself : editing = some b.id
    · simp only [findOverlappingBooking, if_pos hself]
      constructor
      · rw [ih.1]
        constructor
        · rintro ⟨x, hx, hne, h1, h2⟩
          exact ⟨x, List.mem_cons_of_mem _ hx, hne, h1, h2⟩
        · rintro ⟨x, hx, hne, h1, h2⟩
          rcases List.mem_cons.mp hx with rfl | hx
          · exact absurd hself hne
          · exact ⟨x, hx, hne, h1, h2⟩
      · exact ih.2
    · by_cases hov : isOverlapping cs ce b.startDate b.endDate = true
      · simp only [findOverlappingBooking, if_neg hself, if_pos hov]
        have hcond : startOfDay cs ≤ startOfDay b.endDate ∧
            startOfDay ce ≥ startOfDay b.startDate := by
          simpa [isOverlapping, Bool.and_eq_true, decide_eq_true_eq] using hov
        constructor
        · simp only [Option.isSome_some, true_iff]
          exact ⟨b, List.mem_cons_self b rest, hself, hcond.1, hcond.2⟩
        · intro x hx
          injection hx with hx
          subst hx
          exact hself
      · simp only [findOverlappingBooking, if_neg hself, if_neg hov]
        have hcond : ¬ (startOfDay cs ≤ startOfDay b.endDate ∧
            startOfDay ce ≥ startOfDay b.startDate) := by
          intro h
          exact hov (by simpa [isOverlapping, Bool.and_eq_true, decide_eq_true_eq] using h)
        constructor
        · rw [ih.1]
          constructor
          · rintro ⟨x, hx, hne, h1, h2⟩
            exact ⟨x, List.mem_cons_of_mem _ hx, hne, h1, h2⟩
          · rintro ⟨x, hx, hne, h1, h2⟩
            rcases List.mem_cons.mp hx with rfl | hx
            · exact absurd ⟨h1, h2⟩ hcond
            · exact ⟨x, hx, hne, h1, h2⟩
        · exact ih.2

/-- Witness for C1 at a concrete input: a candidate for days 5–7 conflicts
with an existing booking for days 3–5 (shared boundary day 5), and the
reported booking is not the one being edited. -/
theorem conflict_check_iff_witness :
    (findOverlappingBooking (5 * msPerDay) (7 * msPerDay) none [sampleBooked]).isSome = true := by
  exact (conflict_check_iff (5 * msPerDay) (7 * msPerDay) none [sampleBooked]).1.mpr
    ⟨sampleBooked, by decide, by decide, by decide, by decide⟩

/-- C2.  The displayed cell status follows the fixed priority order
`booked` > `maintenance` > `pending` over the bookings covering the cell: a
covering `booked` booking always wins, otherwise a covering `maintenance`
booking wins (in particular a cell covered by both a maintenance and a
pending booking shows `maintenance`), otherwise a covering `pending` booking
wins. -/
theorem cell_status_priority (bookings : List Booking) (roomId : String) (D : DateTime) :
    ((dayBookingsFor bookings roomId D).any (fun b => b.status == .booked) = true →
      (cellFor bookings roomId D).status = .booked)
    ∧ ((dayBookingsFor bookings roomId D).any (fun b => b.status == .booked) = false →
       (dayBookingsFor bookings roomId D).any (fun b => b.status == .maintenance) = true →
      (cellFor bookings roomId D).status = .maintenance)
    ∧ ((dayBookingsFor bookings roomId D).any (fun b => b.status == .booked) = false →
       (dayBookingsFor bookings roomId D).any (fun b => b.status == .maintenance) = false →
       (dayBookingsFor bookings roomId D).any (fun b => b.status == .pending) = true →
      (cellFor bookings roomId D).status = .pending) := by
  have hne : ∀ p : Booking → Bool,
      (dayBookingsFor bookings roomId D).any p = true →
      (dayBookingsFor bookings roomId D).isEmpty = false := by
    intro p hp
    cases hemp : (dayBookingsFor bookings roomId D).isEmpty
    · rfl
    · rw [List.isEmpty_iff] at hemp
      rw [hemp] at hp
      simp at hp
  refine ⟨?_, ?_, ?_⟩
  · intro hb
    simp [cellFor, hne _ hb, hb]
  · intro hb hm
    simp [cellFor, hne _ hm, hb, hm]
  · intro hb hm hp
    simp [cellFor, hne _ hp, hb, hm, hp]

/-- Witness for C2 at a concrete input: day 1 of room `r1` is covered by a
maintenance booking and a pending booking and no booked one, and the
displayed status is `maintenance`. -/
theorem cell_status_priority_witness :
    (dayBookingsFor [sampleMaint, samplePend] "r1" msPerDay).any
        (fun b => b.status == .booked) = false
    ∧ (dayBookingsFor [sampleMaint, samplePend] "r1" msPerDay).any
        (fun b => b.status == .maintenance) = true
    ∧ (dayBookingsFor [sampleMaint, samplePend] "r1" msPerDay).any
        (fun b => b.status == .pending) = true
    ∧ (cellFor [sampleMaint, samplePend] "r1" msPerDay).status = .maintenance := by
  refine ⟨by decide, by decide, by decide, ?_⟩
  exact (cell_status_priority [sampleMaint, samplePend] "r1" msPerDay).2.1
    (by decide) (by decide)

/-- Membership in the per-cell booking filter: a booking passes iff it is on
the room and its raw `[startDate, endDate]` interval contains the day. -/
theorem mem_dayBookingsFor (bookings : List Booking) (roomId : String) (D : DateTime)
    (b : Booking) :
    b ∈ dayBookingsFor bookings roomId D ↔
      b ∈ bookings ∧ b.roomId = roomId ∧ b.startDate ≤ D ∧ D ≤ b.endDate := by
  simp [dayBookingsFor, List.mem_filter, isWithinInterval, Bool.and_eq_true,
    decide_eq_true_eq, beq_iff_eq, and_assoc]

/-- The computed cell status is `available` exactly when no booking passes
the per-cell filter. -/
theorem cellFor_status_available_iff (bookings : List Booking) (roomId : String)
    (D : DateTime) :
    (cellFor bookings roomId D).status = .available ↔
      dayBookingsFor bookings roomId D = [] := by
  constructor
  · intro h
    by_contra hne
    obtain ⟨b, hb⟩ := List.exists_mem_of_ne_nil _ hne
    have hisem : (dayBookingsFor bookings roomId D).isEmpty = false := by
      cases hh : (dayBookingsFor bookings roomId D).isEmpty
      · rfl
      · exact absurd (List.isEmpty_iff.mp hh) hne
    by_cases hbk : (dayBookingsFor bookings roomId D).any (fun x => x.status == .booked) = true
    · simp [cellFor, hisem, hbk] at h
    · by_cases hmt : (dayBookingsFor bookings roomId D).any
          (fun x => x.status == .maintenance) = true
      · simp [cellFor, hisem, hbk, hmt] at h
      · by_cases hpd : (dayBookingsFor bookings roomId D).any
            (fun x => x.status == .pending) = true
        · simp [cellFor, hisem, hbk, hmt, hpd] at h
        · cases hs : b.status
          · exact hbk (List.any_eq_true.mpr ⟨b, hb, by simp [hs]⟩)
          · exact hpd (List.any_eq_true.mpr ⟨b, hb, by simp [hs]⟩)
          · exact hmt (List.any_eq_true.mpr ⟨b, hb, by simp [hs]⟩)
  · intro h
    simp [cellFor, h]

/-- C3 (amended).  A cell is `available` iff no booking of the room contains
the grid day in its inclusive `[startDate, endDate]` interval of raw date
values (the builder compares unnormalised dates, so this matches calendar-day
containment exactly when the stored dates are at midnight); a non-available
cell references one of the covering bookings. -/
theorem cell_available_iff_raw (bookings : List Booking) (roomId : String) (D : DateTime) :
    ((cellFor bookings roomId D).status = .available ↔
      ∀ b ∈ bookings, ¬(b.roomId = roomId ∧ b.startDate ≤ D ∧ D ≤ b.endDate))
    ∧ ((cellFor bookings roomId D).status ≠ .available →
      ∃ b, (cellFor bookings roomId D).booking = some b ∧ b ∈ bookings ∧
        b.roomId = roomId ∧ b.startDate ≤ D ∧ D ≤ b.endDate) := by
  constructor
  · rw [cellFor_status_available_iff]
    constructor
    · intro h b hb hcond
      have hmem : b ∈ dayBookingsFor bookings roomId D :=
        (mem_dayBookingsFor bookings roomId D b).mpr ⟨hb, hcond⟩
      rw [h] at hmem
      simp at hmem
    · intro h
      by_contra hne
      obtain ⟨b, hb⟩ := List.exists_mem_of_ne_nil _ hne
      have hprops := (mem_dayBookingsFor bookings roomId D b).mp hb
      exact h b hprops.1 hprops.2
  · intro hstat
    have hne : dayBookingsFor bookings roomId D ≠ [] := by
      intro hh
      exact hstat ((cellFor_status_available_iff bookings roomId D).mpr hh)
    have hisem : (dayBookingsFor bookings roomId D).isEmpty = false := by
      cases hh : (dayBookingsFor bookings roomId D).isEmpty
      · rfl
      · exact absurd (List.isEmpty_iff.mp hh) hne
    by_cases hbk : (dayBookingsFor bookings roomId D).any (fun x => x.status == .booked) = true
    · have hsome : ((dayBookingsFor bookings roomId D).find?
          (fun x => x.status == .booked)).isSome := by
        rw [List.find?_isSome]
        exact List.any_eq_true.mp hbk
      obtain ⟨b, hfind⟩ := Option.isSome_iff_exists.mp hsome
      have hprops := (mem_dayBookingsFor bookings roomId D b).mp
        (List.mem_of_find?_eq_some hfind)
      refine ⟨b, ?_, hprops.1, hprops.2.1, hprops.2.2.1, hprops.2.2.2⟩
      simp [cellFor, hisem, hbk, hfind]
    · by_cases hmt : (dayBookingsFor bookings roomId D).any
          (fun x => x.status == .maintenance) = true
      · have hsome : ((dayBookingsFor bookings roomId D).find?
            (fun x => x.status == .maintenance)).isSome := by
          rw [List.find?_isSome]
          exact List.any_eq_true.mp hmt
        obtain ⟨b, hfind⟩ := Option.isSome_iff_exists.mp hsome
        have hprops := (mem_dayBookingsFor bookings roomId D b).mp
          (List.mem_of_find?_eq_some hfind)
        refine ⟨b, ?_, hprops.1, hprops.2.1, hprops.2.2.1, hprops.2.2.2⟩
        simp [cellFor, hisem, hbk, hmt, hfind]
      · by_cases hpd : (dayBookingsFor bookings roomId D).any
            (fun x => x.status == .pending) = true
        · have hsome : ((dayBookingsFor bookings roomId D).find?
              (fun x => x.status == .pending)).isSome := by
            rw [List.find?_isSome]
            exact List.any_eq_true.mp hpd
          obtain ⟨b, hfind⟩ := Option.isSome_iff_exists.mp hsome
          have hprops := (mem_dayBookingsFor bookings roomId D b).mp
            (List.mem_of_find?_eq_some hfind)
          refine ⟨b, ?_, hprops.1, hprops.2.1, hprops.2.2.1, hprops.2.2.2⟩
          simp [cellFor, hisem, hbk, hmt, hpd, hfind]
        · obtain ⟨b, hb⟩ := List.exists_mem_of_ne_nil _ hne
          cases hs : b.status
          · exact absurd (List.any_eq_true.mpr ⟨b, hb, by simp [hs]⟩) hbk
          · exact absurd (List.any_eq_true.mpr ⟨b, hb, by simp [hs]⟩) hpd
          · exact absurd (List.any_eq_true.mpr ⟨b, hb, by simp [hs]⟩) hmt

/-- Counterexample to C3 as stated: `bkNoonBooked` runs from noon of day 0 to
noon of day 2, so its calendar-day interval contains day 0, yet the computed
cell of room `r1` for day 0 has status `available` (the builder compares the
raw, unnormalised dates). -/
theorem cell_available_iff_counterexample :
    bkNoonBooked.roomId = "r1"
    ∧ dayOf bkNoonBooked.startDate ≤ dayOf (0 : DateTime)
    ∧ dayOf (0 : DateTime) ≤ dayOf bkNoonBooked.endDate
    ∧ (cellFor [bkNoonBooked] "r1" 0).status = .available := by
  decide

/-- Witness for C3 (amended) at a concrete input: day 4 of room `r1` is
covered by `sampleBooked` (days 3–5, raw midnight dates), the cell is
non-available and references that booking. -/
theorem cell_available_iff_raw_witness :
    (cellFor [sampleBooked] "r1" (4 * msPerDay)).status ≠ .available
    ∧ (cellFor [sampleBooked] "r1" (4 * msPerDay)).booking = some sampleBooked := by
  have h := (cell_available_iff_raw [sampleBooked] "r1" (4 * msPerDay)).1
  constructor
  · intro hav
    exact ((h.mp hav) sampleBooked (by decide)) (by decide)
  · have h2 := (cell_available_iff_raw [sampleBooked] "r1" (4 * msPerDay)).2
      (by decide)
    obtain ⟨b, hbk, hmem, _⟩ := h2
    have : b = sampleBooked := by
      cases hmem with
      | head => rfl
      | tail _ htl => cases htl
    rw [this] at hbk
    exact hbk

/-- C4: the grid builder does not strip time-of-day from booking endpoints
before the containment comparison — a booking stored with noon endpoints
yields a different per-day occupancy than the same booking at midnight
(`available` instead of `booked` on day 0), even though both normalise to the
same start-of-day dates. -/
theorem grid_builder_unnormalized_dates :
    startOfDay bkNoonBooked.startDate = bkMidnightBooked.startDate
    ∧ startOfDay bkNoonBooked.endDate = bkMidnightBooked.endDate
    ∧ (cellFor [bkMidnightBooked] "r1" 0).status = .booked
    ∧ (cellFor [bkNoonBooked] "r1" 0).status = .available := by
  decide

/-- C5: after switching the selection from `A` to `B` while `A`'s fetch is
still pending, nothing discards the stale load — when `A`'s fetch resolves
after `B`'s, the final state has selection `B` but displays `A`'s rooms and
`A`'s bookings, which differ from `B`'s. -/
theorem stale_fetch_overwrites_selection :
    (pageRun storeAB pageInit staleTrace).selectedLocationId = some "B"
    ∧ (pageRun storeAB pageInit staleTrace).allRoomsForSelectedLocation = [roomA]
    ∧ (pageRun storeAB pageInit staleTrace).allBookingsForSelectedLocation = [bookingA]
    ∧ getRooms storeAB (some "B") = [roomB]
    ∧ getBookingsByLocation storeAB "B" = [bookingB] := by
  decide

/-- C6: `deleteRoom` returns failure and leaves the store untouched whenever
some booking references the room; once no booking references it and the room
exists, deletion succeeds, the surviving rooms are exactly those with a
different id, and the other collections are untouched. -/
theorem deleteRoom_referential_integrity (s : Store) (roomId : String) :
    ((∃ b ∈ s.bookings, b.roomId = roomId) → deleteRoom s roomId = (false, s))
    ∧ ((∀ b ∈ s.bookings, b.roomId ≠ roomId) → (∃ r ∈ s.rooms, r.id = roomId) →
        (deleteRoom s roomId).1 = true
        ∧ (∀ r : Room, r ∈ (deleteRoom s roomId).2.rooms ↔ r ∈ s.rooms ∧ r.id ≠ roomId)
        ∧ (deleteRoom s roomId).2.bookings = s.bookings
        ∧ (deleteRoom s roomId).2.locations = s.locations) := by
  constructor
  · rintro ⟨b, hb, hid⟩
    have hany : s.bookings.any (fun x => x.roomId == roomId) = true :=
      List.any_eq_true.mpr ⟨b, hb, by simp [hid]⟩
    simp [deleteRoom, hany]
  · intro hno hex
    have hany : s.bookings.any (fun x => x.roomId == roomId) = false := by
      rw [Bool.eq_false_iff]
      intro hc
      obtain ⟨b, hb, hid⟩ := List.any_eq_true.mp hc
      exact hno b hb (by simpa using hid)
    obtain ⟨r, hr, hrid⟩ := hex
    have hlt : (s.rooms.filter (fun x => x.id != roomId)).length < s.rooms.length :=
      List.length_filter_lt_length_iff_exists.mpr ⟨r, hr, by simp [hrid]⟩
    refine ⟨by simp [deleteRoom, hany, hlt], ?_, by simp [deleteRoom, hany],
      by simp [deleteRoom, hany]⟩
    intro x
    simp [deleteRoom, hany, List.mem_filter]

/-- Witness for C6 at concrete inputs: deleting room `ra` fails while
`bookingA` references it and the store is unchanged; after the booking is
removed the deletion succeeds. -/
theorem deleteRoom_referential_integrity_witness :
    deleteRoom storeWithBooking "ra" = (false, storeWithBooking)
    ∧ (deleteRoom storeNoBooking "ra").1 = true
    ∧ (deleteRoom storeNoBooking "ra").2.rooms = [] := by
  refine ⟨(deleteRoom_referential_integrity storeWithBooking "ra").1
    ⟨bookingA, by decide, by decide⟩, ?_, by decide⟩
  exact ((deleteRoom_referential_integrity storeNoBooking "ra").2
    (by decide) ⟨roomA, by decide, by decide⟩).1

/-- Counterexample to C7 as stated: location `L` has 31 rooms; `r30` is one
of its rooms and carries the store's only booking, yet
`getBookingsByLocation` returns the empty list — the query is truncated to
the first 30 room ids instead of being chunked. -/
theorem chunking_counterexample :
    roomL 30 ∈ getRooms storeL31 (some "L")
    ∧ bkOnLast.roomId = (roomL 30).id
    ∧ bkOnLast ∈ storeL31.bookings
    ∧ getBookingsByLocation storeL31 "L" = [] := by
  decide

/-- C7 (amended).  `getBookingsByLocation` lists the location's rooms and
then the bookings for those room ids, but truncates to the first 30 room ids
instead of chunking: the result is exactly the bookings on the first 30 of
the location's rooms, hence complete only when the location has at most 30
rooms. -/
theorem getBookingsByLocation_truncates (s : Store) (locationId : String) :
    (∀ b, b ∈ getBookingsByLocation s locationId ↔
      b ∈ s.bookings ∧
        b.roomId ∈ ((getRooms s (some locationId)).map (fun r => r.id)).take 30)
    ∧ ((getRooms s (some locationId)).length ≤ 30 →
      ∀ b, b ∈ getBookingsByLocation s locationId ↔
        b ∈ s.bookings ∧ ∃ r ∈ getRooms s (some locationId), b.roomId = r.id) := by
  have hmain : ∀ b, b ∈ getBookingsByLocation s locationId ↔
      b ∈ s.bookings ∧
        b.roomId ∈ ((getRooms s (some locationId)).map (fun r => r.id)).take 30 := by
    intro b
    by_cases hemp : (getRooms s (some locationId)).isEmpty
    · rw [List.isEmpty_iff] at hemp
      simp [getBookingsByLocation, hemp]
    · have hemp' : (getRooms s (some locationId)).isEmpty = false := by
        cases hh : (getRooms s (some locationId)).isEmpty
        · rfl
        · exact absurd hh hemp
      simp [getBookingsByLocation, hemp', List.mem_filter, List.elem_iff]
  refine ⟨hmain, ?_⟩
  intro hlen b
  rw [hmain b]
  have htake : ((getRooms s (some locationId)).map (fun r => r.id)).take 30
      = (getRooms s (some locationId)).map (fun r => r.id) := by
    apply List.take_of_length_le
    simpa using hlen
  rw [htake]
  simp only [List.mem_map]
  constructor
  · rintro ⟨hb, r, hr, hid⟩
    exact ⟨hb, r, hr, hid.symm⟩
  · rintro ⟨hb, r, hr, hid⟩
    exact ⟨hb, r, hr, hid.symm⟩

/-- Witness for C7 (amended) at a concrete input: location `B` of `storeAB`
has one room, so the result is complete and contains `bookingB`. -/
theorem getBookingsByLocation_truncates_witness :
    bookingB ∈ getBookingsByLocation storeAB "B" := by
  exact ((getBookingsByLocation_truncates storeAB "B").2 (by decide) bookingB).mpr
    ⟨by decide, roomB, by decide, by decide⟩

/-- C8: `seedInitialData` is idempotent — on any store that already has at
least one location it is the identity, and running it twice from the empty
store (with any id supply and clock on the second run) equals running it
once. -/
theorem seedInitialData_idempotent (freshId : Nat → String) (now : DateTime) (s : Store) :
    (s.locations ≠ [] → seedInitialData freshId now s = s)
    ∧ ∀ (freshId2 : Nat → String) (now2 : DateTime),
        seedInitialData freshId2 now2 (seedInitialData freshId now emptyStore)
          = seedInitialData freshId now emptyStore := by
  constructor
  · intro h
    have hemp : s.locations.isEmpty = false := by
      cases hh : s.locations.isEmpty
      · rfl
      · exact absurd (List.isEmpty_iff.mp hh) h
    simp [seedInitialData, hemp]
  · intro freshId2 now2
    simp [seedInitialData, emptyStore]

/-- Witness for C8 at a concrete input: `storeAB` already has locations, so
seeding leaves it unchanged. -/
theorem seedInitialData_idempotent_witness :
    seedInitialData (fun _ => "fresh") 0 storeAB = storeAB := by
  exact (seedInitialData_idempotent (fun _ => "fresh") 0 storeAB).1 (by decide)

/-- C9: creating a booking and then immediately listing the bookings of its
room returns a record whose `roomId`, `guestName`, `startDate`, `endDate`
and `status` all equal the input's — the freshly added booking itself. -/
theorem addBooking_getBookings_roundtrip (newId : String) (d : BookingData) (s : Store) :
    ∃ b ∈ getBookings (addBooking newId d s).2 (some d.roomId),
      b.roomId = d.roomId ∧ b.guestName = d.guestName ∧ b.startDate = d.startDate
      ∧ b.endDate = d.endDate ∧ b.status = d.status ∧ b = (addBooking newId d s).1 := by
  refine ⟨(addBooking newId d s).1, ?_, rfl, rfl, rfl, rfl, rfl, rfl⟩
  simp [addBooking, getBookings, List.mem_filter]

/-- C10: updating a booking whose id matches no stored booking returns
`undefined` and leaves the store entirely unchanged. -/
theorem updateBooking_not_found (u : Booking) (s : Store)
    (h : ∀ b ∈ s.bookings, b.id ≠ u.id) :
    updateBooking u s = (none, s) := by
  have hfind : s.bookings.findIdx? (fun b => b.id == u.id) = none := by
    rw [List.findIdx?_eq_none_iff]
    intro b hb
    simp [h b hb]
  simp [updateBooking, hfind]

/-- Witness for C10 at a concrete input: updating `sampleBooked` against a
store holding only `samplePend` (a different id) returns `none` and keeps the
store as it was. -/
theorem updateBooking_not_found_witness :
    updateBooking sampleBooked
        { locations := [], rooms := [], bookings := [samplePend] }
      = (none, { locations := [], rooms := [], bookings := [samplePend] }) := by
  exact updateBooking_not_found sampleBooked
    { locations := [], rooms := [], bookings := [samplePend] } (by decide)
